import Mathlib

/-!
# Verification of the recommendations pagination / caching state machine

Shallow embedding of `src/state-driver/src/recsManager.ts` from the
`groupby/rzlv-shopify-sdk` repository.  Numbers are embedded as `Int`
(JS numbers used as integers) or `Nat` where the source value is
provably non-negative; `string | null` becomes `Option String`;
throwing functions return `Except RecsError`.
-/

namespace RecsManager

/-- A recommendation product.  Only its identity matters to the claims;
the dynamic fields of the TS `RecsProduct` interface are irrelevant, so a
product is modelled by an opaque payload string. -/
def RecsProduct := String
deriving DecidableEq, Repr

/-- Error taxonomy: `RecsConfigError`, `RecsInstanceError`, `RecsFetchError`
from `recsManager.ts` (all subclasses of `RecsManagerError`). -/
inductive RecsError where
  | configError (msg : String)
  | instanceError (msg : String)
  | fetchError (msg : String)
deriving DecidableEq, Repr

instance exceptDecEq {ε α : Type} [DecidableEq ε] [DecidableEq α] :
    DecidableEq (Except ε α) := fun x y =>
  match x, y with
  | .ok a, .ok b =>
    if h : a = b then isTrue (by rw [h]) else isFalse (by simp [h])
  | .error e, .error f =>
    if h : e = f then isTrue (by rw [h]) else isFalse (by simp [h])
  | .ok _, .error _ => isFalse (by simp)
  | .error _, .ok _ => isFalse (by simp)

/-- The response of the external recommendations API
(`RequestRecsResponse` in `requestRecommendations.ts`): the product
list, opaque metadata and the raw response payload. -/
structure RequestRecsResponse where
  products : List RecsProduct
  metadataModelName : String
  metadataTotalCount : Int
  rawResponse : Option String
deriving DecidableEq, Repr

/-- A filter entry of `RecsManagerConfig` in `recsManager.ts` (lines 45–50). -/
structure RecsFilter where
  field : String
  value : String
  exclude : String
  required : String
deriving DecidableEq, Repr

/-- `RecsManagerConfig` from `recsManager.ts` (lines 35–56).  Optional TS
fields become `Option`; `appEnv` and the Shopify config are opaque to every
claim and are kept as plain payloads. -/
structure RecsManagerConfig where
  shopTenant : String
  appEnv : String
  name : String
  collection : String
  fields : Option (List String)
  uiPageSize : Int
  productID : Option String
  visitorId : Option String
  loginId : Option String
  filters : Option (List RecsFilter)
  mergeShopifyData : Option Bool
  maxApiResults : Option Int
  cacheTTL : Option Int
  debug : Option Bool
deriving DecidableEq, Repr

/-- The request-affecting subset of a config serialized by
`generateCacheKey` (`recsManager.ts` lines 163–175).  The source value is
`JSON.stringify` of exactly this fixed-shape record, which is injective in
these fields, so the fingerprint string is modelled by the record itself. -/
structure CacheKeyData where
  shopTenant : String
  name : String
  collection : String
  productID : Option String
  visitorId : Option String
  loginId : Option String
  filters : Option (List RecsFilter)
  fields : Option (List String)
deriving DecidableEq, Repr

/-- `generateCacheKey` from `recsManager.ts` (lines 163–175). -/
def generateCacheKey (config : RecsManagerConfig) : CacheKeyData where
  shopTenant := config.shopTenant
  name := config.name
  collection := config.collection
  productID := config.productID
  visitorId := config.visitorId
  loginId := config.loginId
  filters := config.filters
  fields := config.fields

/-- `RecsManagerState` from `recsManager.ts` (lines 58–75). -/
structure RecsManagerState where
  products : List RecsProduct
  currentPage : Int
  uiPageSize : Nat
  totalPages : Nat
  loading : Bool
  error : Option String
  rawResponse : Option String
  lastFetched : Option Int
  cacheKey : Option CacheKeyData
  totalProducts : Nat
  hasNextPage : Bool
  hasPreviousPage : Bool
  pageStartIndex : Nat
  pageEndIndex : Nat
  isFirstPage : Bool
  isLastPage : Bool
deriving DecidableEq, Repr

/-- `initialState` from `recsManager.ts` (lines 91–108). -/
def initialState : RecsManagerState where
  products := []
  currentPage := 1
  uiPageSize := 5
  totalPages := 0
  loading := false
  error := none
  rawResponse := none
  lastFetched := none
  cacheKey := none
  totalProducts := 0
  hasNextPage := false
  hasPreviousPage := false
  pageStartIndex := 0
  pageEndIndex := 0
  isFirstPage := true
  isLastPage := true

/-- `PaginationInfo` from `recsManager.ts` (lines 110–119). -/
structure PaginationInfo where
  totalPages : Nat
  totalProducts : Nat
  hasNextPage : Bool
  hasPreviousPage : Bool
  pageStartIndex : Nat
  pageEndIndex : Nat
  isFirstPage : Bool
  isLastPage : Bool
deriving DecidableEq, Repr

/-- `Math.ceil(t / s)` for natural `t` and positive natural `s`. -/
def ceilDiv (t s : Nat) : Nat := (t + s - 1) / s

/-- `calculatePaginationInfo` from `recsManager.ts` (lines 121–147).
`currentPage` is any JS number (an `Int` here); `uiPageSize` and
`totalProducts` are non-negative at every call site.  The clamped
`validCurrentPage` is at least 1, so the JS subtractions and products
are faithfully represented in `Nat`. -/
def calculatePaginationInfo (currentPage : Int) (uiPageSize totalProducts : Nat) :
    PaginationInfo :=
  let totalPages := max 1 (ceilDiv totalProducts uiPageSize)
  let validCurrentPage : Nat := (max 1 (min currentPage (totalPages : Int))).toNat
  let pageStartIndex := (validCurrentPage - 1) * uiPageSize
  let pageEndIndex := min (pageStartIndex + uiPageSize) totalProducts
  let isFirstPage := validCurrentPage = 1
  let isLastPage := validCurrentPage = totalPages
  { totalPages := totalPages
    totalProducts := totalProducts
    hasNextPage := !isLastPage
    hasPreviousPage := !isFirstPage
    pageStartIndex := pageStartIndex
    pageEndIndex := pageEndIndex
    isFirstPage := isFirstPage
    isLastPage := isLastPage }

/-- Writes the eight derived pagination fields of a `PaginationInfo` into a
state, as the spread `...paginationInfo` does in the `done` watcher. -/
def RecsManagerState.withPagination (s : RecsManagerState) (p : PaginationInfo) :
    RecsManagerState :=
  { s with
    totalPages := p.totalPages
    totalProducts := p.totalProducts
    hasNextPage := p.hasNextPage
    hasPreviousPage := p.hasPreviousPage
    pageStartIndex := p.pageStartIndex
    pageEndIndex := p.pageEndIndex
    isFirstPage := p.isFirstPage
    isLastPage := p.isLastPage }

/-- The eight derived pagination fields of a state, bundled for frame
statements. -/
def derivedFields (s : RecsManagerState) :
    Nat × Nat × Nat × Nat × Bool × Bool × Bool × Bool :=
  (s.totalPages, s.totalProducts, s.pageStartIndex, s.pageEndIndex,
   s.isFirstPage, s.isLastPage, s.hasNextPage, s.hasPreviousPage)

/-- Whether the derived pagination fields of a state agree with what the
pagination calculator computes from `(currentPage, uiPageSize, products.length)`. -/
def paginationConsistent (s : RecsManagerState) : Prop :=
  let p := calculatePaginationInfo s.currentPage s.uiPageSize s.products.length
  s.totalPages = p.totalPages ∧ s.totalProducts = p.totalProducts ∧
  s.pageStartIndex = p.pageStartIndex ∧ s.pageEndIndex = p.pageEndIndex ∧
  s.isFirstPage = p.isFirstPage ∧ s.isLastPage = p.isLastPage ∧
  s.hasNextPage = p.hasNextPage ∧ s.hasPreviousPage = p.hasPreviousPage

instance (s : RecsManagerState) : Decidable (paginationConsistent s) := by
  unfold paginationConsistent; infer_instance

/-- The state updater passed to `updateRecsManagerState` by `nextPage`
(`recsManager.ts` lines 556–588), together with the early return on an
empty product list.  Note: only `currentPage` is written. -/
def nextPageUpdate (s : RecsManagerState) : RecsManagerState :=
  if s.products.length = 0 then s
  else
    let totalPages := ceilDiv s.products.length s.uiPageSize
    let newPage : Int := if s.currentPage ≥ (totalPages : Int) then 1 else s.currentPage + 1
    { s with currentPage := newPage }

/-- The state updater of `previousPage` (`recsManager.ts` lines 594–626). -/
def previousPageUpdate (s : RecsManagerState) : RecsManagerState :=
  if s.products.length = 0 then s
  else
    let totalPages := ceilDiv s.products.length s.uiPageSize
    let newPage : Int := if s.currentPage ≤ 1 then (totalPages : Int) else s.currentPage - 1
    { s with currentPage := newPage }

/-- The state transition of `goToPage` (`recsManager.ts` lines 660–688):
no-op on empty products or on a page number outside `[1, totalPages]`. -/
def goToPageUpdate (pageNumber : Int) (s : RecsManagerState) : RecsManagerState :=
  if s.products.length = 0 then s
  else
    let totalPages := ceilDiv s.products.length s.uiPageSize
    if pageNumber < 1 ∨ pageNumber > (totalPages : Int) then s
    else { s with currentPage := pageNumber }

/-- The body of `setPageSize` (`recsManager.ts` lines 633–653) after
`validateInstance` has succeeded: throws `RecsConfigError` on a
non-positive size, otherwise stores the new size and resets
`currentPage` to 1. -/
def setPageSize (newPageSize : Int) (s : RecsManagerState) :
    Except RecsError RecsManagerState :=
  if newPageSize ≤ 0 then
    .error (.configError "Page size must be a positive number")
  else
    .ok { s with uiPageSize := newPageSize.toNat, currentPage := 1 }

/-- The observable effect of calling `setPageSize` on the store: on a
throw the updater never runs, so the state is returned unchanged. -/
def applySetPageSize (newPageSize : Int) (s : RecsManagerState) : RecsManagerState :=
  match setPageSize newPageSize s with
  | .ok s' => s'
  | .error _ => s

/-- The pagination slice of `getPageInfo` (`recsManager.ts` lines 839–866). -/
structure PageInfo where
  currentPage : Int
  totalPages : Nat
  totalProducts : Nat
  pageSize : Nat
  hasNextPage : Bool
  hasPreviousPage : Bool
  isFirstPage : Bool
  isLastPage : Bool
  pageStartIndex : Nat
  pageEndIndex : Nat
  productsOnCurrentPage : Int
deriving DecidableEq, Repr

/-- `getPageInfo` reads the (shared) store and projects it. -/
def getPageInfo (s : RecsManagerState) : PageInfo where
  currentPage := s.currentPage
  totalPages := s.totalPages
  totalProducts := s.totalProducts
  pageSize := s.uiPageSize
  hasNextPage := s.hasNextPage
  hasPreviousPage := s.hasPreviousPage
  isFirstPage := s.isFirstPage
  isLastPage := s.isLastPage
  pageStartIndex := s.pageStartIndex
  pageEndIndex := s.pageEndIndex
  productsOnCurrentPage := (s.pageEndIndex : Int) - (s.pageStartIndex : Int)

/-! ## Association-list maps

`Map` objects from JS (`recsCache`, `recsManagerInstances`) are embedded as
insertion-ordered association lists: `set` overwrites in place when the key
exists and appends otherwise, `delete` removes the key, exactly as a JS
`Map` behaves (keys are unique in any list built by these operations). -/

/-- First-match lookup, as `Map.get`. -/
def assocLookup {α β : Type} [DecidableEq α] (l : List (α × β)) (k : α) : Option β :=
  match l with
  | [] => none
  | (k', v) :: rest => if k' = k then some v else assocLookup rest k

/-- `Map.set`: overwrite in place when present, append otherwise. -/
def assocSet {α β : Type} [DecidableEq α] (l : List (α × β)) (k : α) (v : β) :
    List (α × β) :=
  match l with
  | [] => [(k, v)]
  | (k', v') :: rest => if k' = k then (k, v) :: rest else (k', v') :: assocSet rest k v

/-- `Map.delete`. -/
def assocDelete {α β : Type} [DecidableEq α] (l : List (α × β)) (k : α) :
    List (α × β) :=
  l.filter (fun kv => kv.1 ≠ k)

/-! ## Cache store -/

/-- `CacheEntry` from `recsManager.ts` (lines 77–82). -/
structure CacheEntry where
  data : RequestRecsResponse
  timestamp : Int
  config : RecsManagerConfig
  expiresAt : Int
deriving DecidableEq, Repr

/-- The module-level `recsCache` map. -/
abbrev RecsCache := List (CacheKeyData × CacheEntry)

/-- `DEFAULT_CACHE_TTL` (5 minutes in ms), `recsManager.ts` line 86. -/
def DEFAULT_CACHE_TTL : Int := 5 * 60 * 1000

/-- `DEFAULT_MAX_API_RESULTS`, `recsManager.ts` line 87. -/
def DEFAULT_MAX_API_RESULTS : Int := 100

/-- `MAX_CACHE_SIZE`, `recsManager.ts` line 88. -/
def MAX_CACHE_SIZE : Nat := 20

/-- JS `x || d` for a possibly-undefined number `x`: `undefined` and `0` are
falsy, every other integer is truthy. -/
def jsOrInt (o : Option Int) (d : Int) : Int :=
  match o with
  | none => d
  | some n => if n = 0 then d else n

/-- JS `x && p x` for a possibly-undefined number `x`, as a Bool condition:
falsy `x` (undefined or 0) short-circuits to false. -/
def jsAndInt (o : Option Int) (p : Int → Bool) : Bool :=
  match o with
  | none => false
  | some n => n != 0 && p n

/-- `getCachedData` from `recsManager.ts` (lines 177–188).  Returns the
looked-up entry (if present and unexpired) and the possibly-updated cache;
an entry whose `expiresAt` has been reached is deleted and reported absent.
The `cacheTTL` parameter is declared and ignored, as in the source. -/
def getCachedData (cache : RecsCache) (cacheKey : CacheKeyData) (cacheTTL : Int)
    (now : Int) : Option CacheEntry × RecsCache :=
  match assocLookup cache cacheKey with
  | none => (none, cache)
  | some cached =>
    if now ≥ cached.expiresAt then (none, assocDelete cache cacheKey)
    else (some cached, cache)

/-- `cleanupExpiredCache` from `recsManager.ts` (lines 194–209): removes
every entry whose `expiresAt` has been reached. -/
def cleanupExpiredCache (now : Int) (cache : RecsCache) : RecsCache :=
  cache.filter (fun kv => decide (now < kv.2.expiresAt))

/-- Stable insertion by ascending timestamp (the JS `entries.sort((a, b) =>
a[1].timestamp - b[1].timestamp)` comparator). -/
def insertByTimestamp (kv : CacheKeyData × CacheEntry) :
    List (CacheKeyData × CacheEntry) → List (CacheKeyData × CacheEntry)
  | [] => [kv]
  | x :: xs =>
    if kv.2.timestamp < x.2.timestamp then kv :: x :: xs
    else x :: insertByTimestamp kv xs

/-- Sorts cache entries by ascending timestamp (oldest first). -/
def sortByTimestamp (c : List (CacheKeyData × CacheEntry)) :
    List (CacheKeyData × CacheEntry) :=
  c.foldr insertByTimestamp []

/-- `setCachedData` from `recsManager.ts` (lines 211–238): stores the entry
with `expiresAt = now + (config.cacheTTL || DEFAULT_CACHE_TTL)`, evicts
oldest-first when the size bound is exceeded, then opportunistically cleans
expired entries. -/
def setCachedData (cache : RecsCache) (cacheKey : CacheKeyData)
    (data : RequestRecsResponse) (config : RecsManagerConfig) (now : Int) : RecsCache :=
  let cacheTTL := jsOrInt config.cacheTTL DEFAULT_CACHE_TTL
  let c1 := assocSet cache cacheKey
    { data := data, timestamp := now, config := config, expiresAt := now + cacheTTL }
  let c2 :=
    if c1.length > MAX_CACHE_SIZE then
      let sorted := sortByTimestamp c1
      let entriesToRemove := sorted.take (sorted.length - MAX_CACHE_SIZE)
      entriesToRemove.foldl (fun acc kv => assocDelete acc kv.1) c1
    else c1
  cleanupExpiredCache now c2

/-! ## Config validation and the fetch effect -/

/-- `validateConfig` from `recsManager.ts` (lines 296–320).  JS truthiness:
`!config.uiPageSize` is true for 0, and `config.maxApiResults && …` /
`config.cacheTTL && …` short-circuit on `undefined` and on 0. -/
def validateConfig (config : RecsManagerConfig) : Except RecsError Unit :=
  if config.shopTenant = "" then
    .error (.configError "Shop tenant is required for RecsManager")
  else if config.name = "" then
    .error (.configError "Recommendation model name is required for RecsManager")
  else if config.collection = "" then
    .error (.configError "Collection name is required for RecsManager")
  else if config.uiPageSize = 0 ∨ config.uiPageSize ≤ 0 then
    .error (.configError "UI page size must be a positive number for RecsManager")
  else if jsAndInt config.maxApiResults (fun m => m ≤ 0) then
    .error (.configError "Max API results must be a positive number if specified")
  else if jsAndInt config.cacheTTL (fun t => t < 0) then
    .error (.configError "Cache TTL must be non-negative if specified")
  else
    .ok ()

/-- `fetchRecsFx` from `recsManager.ts` (lines 247–283), with the external
`requestRecommendations` collaborator supplied as an oracle value
`apiResponse`.  Returns the response handed to the caller, the `pageSize`
sent to the API (`none` on a cache hit — no network call), and the cache
after the call. -/
def fetchRecsFx (config : RecsManagerConfig) (cache : RecsCache) (now : Int)
    (apiResponse : RequestRecsResponse) :
    RequestRecsResponse × Option Int × RecsCache :=
  let cacheKey := generateCacheKey config
  let cacheTTL := jsOrInt config.cacheTTL DEFAULT_CACHE_TTL
  match getCachedData cache cacheKey cacheTTL now with
  | (some cached, cache') => (cached.data, none, cache')
  | (none, cache') =>
    let maxResults := jsOrInt config.maxApiResults DEFAULT_MAX_API_RESULTS
    (apiResponse, some maxResults, setCachedData cache' cacheKey apiResponse config now)

/-! ## Fetch lifecycle watchers and the `fetchRecommendations` catch path -/

/-- The store updater run by the `fetchRecsFx.done` watcher
(`recsManager.ts` lines 409–434): guarded by the cache-key fingerprint of
the params that produced the result. -/
def doneWatcherUpdate (params : RecsManagerConfig) (result : RequestRecsResponse)
    (now : Int) (current : RecsManagerState) : RecsManagerState :=
  let resultCacheKey := generateCacheKey params
  if current.cacheKey ≠ some resultCacheKey then current
  else
    let paginationInfo := calculatePaginationInfo current.currentPage
      current.uiPageSize result.products.length
    { current.withPagination paginationInfo with
      products := result.products
      loading := false
      error := none
      rawResponse := result.rawResponse
      lastFetched := some now }

/-- The store updater run by the `fetchRecsFx.fail` watcher
(`recsManager.ts` lines 436–451): same cache-key guard, sets only
`loading` and `error`. -/
def failWatcherUpdate (params : RecsManagerConfig) (errorMessage : String)
    (current : RecsManagerState) : RecsManagerState :=
  let errorCacheKey := generateCacheKey params
  if current.cacheKey ≠ some errorCacheKey then current
  else { current with loading := false, error := some errorMessage }

/-- The store updater run by the `catch` block of `fetchRecommendations`
(`recsManager.ts` lines 506–519): sets the wrapped `RecsFetchError`
message with no cache-key guard. -/
def fetchRecommendationsCatchUpdate (errorMessage : String)
    (current : RecsManagerState) : RecsManagerState :=
  { current with
    loading := false
    error := some ("Failed to fetch recommendations: " ++ errorMessage) }

/-- The complete store effect of a fetch started by `fetchRecommendations`
that fails with message `errorMessage`: the effect's `fail` watcher fires
first, then the `catch` block in `fetchRecommendations` applies its own
update. -/
def fetchFailurePath (params : RecsManagerConfig) (errorMessage : String)
    (current : RecsManagerState) : RecsManagerState :=
  fetchRecommendationsCatchUpdate errorMessage
    (failWatcherUpdate params errorMessage current)

/-! ## Multi-instance registry and the shared store -/

/-- `RecsManagerInstance` from `recsManager.ts` (lines 286–292). -/
structure RecsManagerInstance where
  config : RecsManagerConfig
  initialized : Bool
  cacheKey : CacheKeyData
  lastUsed : Int
  watchersInitialized : Bool
deriving DecidableEq, Repr

/-- The whole observable module state: the `recsManagerInstances` registry
map plus the single module-level `recsManagerStore` (`recsManager.ts`
lines 152–160 and 294). -/
structure RecsGlobal where
  store : RecsManagerState
  instances : List (String × RecsManagerInstance)
deriving DecidableEq, Repr

/-- `validateInstance` from `recsManager.ts` (lines 478–493): throws unless
the instance exists and is initialized; refreshes its `lastUsed` stamp. -/
def validateInstance (instanceId : String) (now : Int) (g : RecsGlobal) :
    Except RecsError (RecsManagerConfig × RecsGlobal) :=
  match assocLookup g.instances instanceId with
  | none => .error (.instanceError ("RecsManager instance '" ++ instanceId ++
      "' does not exist. Call initRecsManager() first."))
  | some inst =>
    if inst.initialized = false then
      .error (.instanceError ("RecsManager instance '" ++ instanceId ++
        "' exists but is not fully initialized."))
    else
      .ok (inst.config,
        { g with instances := assocSet g.instances instanceId { inst with lastUsed := now } })

/-- `nextPage(instanceId)` at the whole-system level (`recsManager.ts`
lines 556–588): validate the instance, then apply the navigation updater to
the single shared store. -/
def nextPageGlobal (instanceId : String) (now : Int) (g : RecsGlobal) :
    Except RecsError RecsGlobal :=
  match validateInstance instanceId now g with
  | .error e => .error e
  | .ok (_, g1) => .ok { g1 with store := nextPageUpdate g1.store }

/-- The recommendation state an instance observes: `getRecsManagerState`,
`getPageInfo` and `getCurrentPageProducts` all read the one module-level
`recsManagerStore`, whatever instance id the caller passes. -/
def observedState (instanceId : String) (g : RecsGlobal) : RecsManagerState :=
  g.store

/-! ## Concrete fixtures used by witnesses and counterexamples -/

/-- A loaded, pagination-consistent state: `len` products, the given page
size and current page, with the derived fields freshly computed — the state
a successful fetch followed by recomputation would produce. -/
def exampleState (len size : Nat) (page : Int) : RecsManagerState :=
  ({ initialState with
      products := List.replicate len "p"
      uiPageSize := size
      currentPage := page }).withPagination
    (calculatePaginationInfo page size len)

/-- A concrete API response with 7 products. -/
def respEx : RequestRecsResponse where
  products := List.replicate 7 "q"
  metadataModelName := "model-a"
  metadataTotalCount := 7
  rawResponse := some "raw"

/-- A concrete valid configuration. -/
def cfgA : RecsManagerConfig where
  shopTenant := "tenant"
  appEnv := "Production"
  name := "model-a"
  collection := "best-sellers"
  fields := none
  uiPageSize := 10
  productID := none
  visitorId := none
  loginId := none
  filters := none
  mergeShopifyData := none
  maxApiResults := none
  cacheTTL := none
  debug := none

/-- A second configuration with a different model name, hence a different
cache-key fingerprint. -/
def cfgB : RecsManagerConfig := { cfgA with name := "model-b" }

/-- `cfgA` with an explicit cache TTL of 100 ms. -/
def cfgTTL100 : RecsManagerConfig := { cfgA with cacheTTL := some 100 }

/-- `cfgA` with `cacheTTL = 0` and `maxApiResults = 0`. -/
def cfgZero : RecsManagerConfig := { cfgA with cacheTTL := some 0, maxApiResults := some 0 }

/-- A registry entry for `cfgA`, initialized. -/
def instA : RecsManagerInstance where
  config := cfgA
  initialized := true
  cacheKey := generateCacheKey cfgA
  lastUsed := 0
  watchersInitialized := true

/-- A registry entry for `cfgB`, initialized. -/
def instB : RecsManagerInstance where
  config := cfgB
  initialized := true
  cacheKey := generateCacheKey cfgB
  lastUsed := 0
  watchersInitialized := true

/-- A whole-system state with two initialized instances `"a"`, `"b"` and
25 products loaded in the shared store at page 1. -/
def gEx : RecsGlobal where
  store := { exampleState 25 10 1 with cacheKey := some (generateCacheKey cfgA) }
  instances := [("a", instA), ("b", instB)]

/-! ## Arithmetic lemmas about ceiling division -/

theorem ceilDiv_eq (t s : Nat) (hs : 0 < s) (ht : 0 < t) :
    ceilDiv t s = (t - 1) / s + 1 := by
  unfold ceilDiv
  have h : t + s - 1 = (t - 1) + s := by omega
  rw [h, Nat.add_div_right _ hs]

theorem ceilDiv_pos (t s : Nat) (hs : 0 < s) (ht : 0 < t) : 0 < ceilDiv t s := by
  rw [ceilDiv_eq t s hs ht]
  exact Nat.succ_pos _

theorem ceilDiv_pred_mul_le (t s : Nat) (hs : 0 < s) (ht : 0 < t) :
    (ceilDiv t s - 1) * s ≤ t - 1 := by
  rw [ceilDiv_eq t s hs ht]
  simp only [Nat.add_sub_cancel]
  exact Nat.div_mul_le_self (t - 1) s

/-! ## Lemmas about association-list maps -/

theorem assocLookup_assocSet_self {α β : Type} [DecidableEq α]
    (l : List (α × β)) (k : α) (v : β) :
    assocLookup (assocSet l k v) k = some v := by
  induction l with
  | nil => simp [assocSet, assocLookup]
  | cons hd tl ih =>
    obtain ⟨k', v'⟩ := hd
    by_cases h : k' = k
    · simp [assocSet, assocLookup, h]
    · simp [assocSet, assocLookup, h, ih]

theorem assocLookup_assocSet_ne {α β : Type} [DecidableEq α]
    (l : List (α × β)) (a b : α) (v : β) (h : a ≠ b) :
    assocLookup (assocSet l a v) b = assocLookup l b := by
  induction l with
  | nil => simp [assocSet, assocLookup, h]
  | cons hd tl ih =>
    obtain ⟨k', v'⟩ := hd
    by_cases hk : k' = a
    · simp [assocSet, assocLookup, hk, h]
    · simp [assocSet, assocLookup, hk, ih]

theorem assocLookup_assocDelete_self {α β : Type} [DecidableEq α]
    (l : List (α × β)) (k : α) :
    assocLookup (assocDelete l k) k = none := by
  induction l with
  | nil => simp [assocDelete, assocLookup]
  | cons hd tl ih =>
    obtain ⟨k', v'⟩ := hd
    by_cases h : k' = k
    · simpa [assocDelete, List.filter_cons, h] using ih
    · simpa [assocDelete, assocLookup, List.filter_cons, h] using ih

theorem length_assocSet_le {α β : Type} [DecidableEq α]
    (l : List (α × β)) (k : α) (v : β) :
    (assocSet l k v).length ≤ l.length + 1 := by
  induction l with
  | nil => simp [assocSet]
  | cons hd tl ih =>
    obtain ⟨k', v'⟩ := hd
    by_cases h : k' = k
    · simp [assocSet, h]
    · simp only [assocSet, if_neg h, List.length_cons]
      omega

theorem keys_assocSet {α β : Type} [DecidableEq α]
    (l : List (α × β)) (k : α) (v : β) :
    (assocSet l k v).map Prod.fst =
      (if k ∈ l.map Prod.fst then l.map Prod.fst else l.map Prod.fst ++ [k]) := by
  induction l with
  | nil => simp [assocSet]
  | cons hd tl ih =>
    obtain ⟨k', v'⟩ := hd
    by_cases h : k' = k
    · simp [assocSet, h]
    · have hne : ¬ k = k' := fun hc => h hc.symm
      by_cases hmem : k ∈ tl.map Prod.fst
      · simp [assocSet, h, hne, hmem, ih]
      · simp [assocSet, h, hne, hmem, ih]

theorem nodupKeys_assocSet {α β : Type} [DecidableEq α]
    (l : List (α × β)) (k : α) (v : β)
    (h : (l.map Prod.fst).Nodup) : ((assocSet l k v).map Prod.fst).Nodup := by
  rw [keys_assocSet]
  by_cases hmem : k ∈ l.map Prod.fst
  · simpa [hmem] using h
  · simp only [hmem, if_neg, ite_false, List.nodup_append]
    refine ⟨h, List.nodup_singleton k, ?_⟩
    intro a ha hak
    simp only [List.mem_singleton] at hak
    exact hmem (hak ▸ ha)

theorem assocLookup_filter {α β : Type} [DecidableEq α]
    (l : List (α × β)) (k : α) (v : β) (p : α × β → Bool)
    (hnd : (l.map Prod.fst).Nodup)
    (hl : assocLookup l k = some v) (hp : p (k, v) = true) :
    assocLookup (l.filter p) k = some v := by
  induction l with
  | nil => simp [assocLookup] at hl
  | cons hd tl ih =>
    obtain ⟨k', v'⟩ := hd
    simp only [List.map_cons, List.nodup_cons] at hnd
    by_cases hk : k' = k
    · subst hk
      simp only [assocLookup, if_pos rfl] at hl
      obtain rfl := Option.some.inj hl
      rw [List.filter_cons, hp]
      simp [assocLookup]
    · simp only [assocLookup, if_neg hk] at hl
      rw [List.filter_cons]
      by_cases hph : p (k', v') = true
      · simp only [hph, if_pos rfl]
        simp [assocLookup, hk, ih hnd.2 hl]
      · simp only [hph, if_neg]
        exact ih hnd.2 hl

/-- After `setCachedData` on a cache with unique keys and room below the
size bound, the stored entry is found under its key, carrying
`expiresAt = now + (config.cacheTTL || DEFAULT_CACHE_TTL)`. -/
theorem lookup_setCachedData_self (cache : RecsCache) (cacheKey : CacheKeyData)
    (data : RequestRecsResponse) (config : RecsManagerConfig) (now : Int)
    (hnd : (cache.map Prod.fst).Nodup) (hsize : cache.length < MAX_CACHE_SIZE)
    (httl : 0 < jsOrInt config.cacheTTL DEFAULT_CACHE_TTL) :
    assocLookup (setCachedData cache cacheKey data config now) cacheKey =
      some { data := data, timestamp := now, config := config,
             expiresAt := now + jsOrInt config.cacheTTL DEFAULT_CACHE_TTL } := by
  have hlen : (assocSet cache cacheKey
      { data := data, timestamp := now, config := config,
        expiresAt := now + jsOrInt config.cacheTTL DEFAULT_CACHE_TTL } : RecsCache).length ≤
      MAX_CACHE_SIZE := by
    have := length_assocSet_le cache cacheKey
      ({ data := data, timestamp := now, config := config,
         expiresAt := now + jsOrInt config.cacheTTL DEFAULT_CACHE_TTL } : CacheEntry)
    omega
  simp only [setCachedData]
  rw [if_neg (by omega)]
  unfold cleanupExpiredCache
  exact assocLookup_filter _ _ _ _
    (nodupKeys_assocSet cache cacheKey _ hnd)
    (assocLookup_assocSet_self cache cacheKey _)
    (by simp; omega)

/-! ## Claim theorems -/

/-- **C4** (confirmed).  Pagination Calculator correctness: for every
`currentPage`, every `pageSize > 0` and every `totalItems ≥ 0`,
`calculatePaginationInfo` returns `totalPages = max(1, ceil(totalItems /
pageSize))`, a clamped `validCurrentPage ∈ [1, totalPages]`,
`pageStartIndex = (validCurrentPage - 1) * pageSize`, `pageEndIndex =
min(pageStartIndex + pageSize, totalItems)` with `totalPages ≥ 1` and
`0 ≤ pageStartIndex ≤ pageEndIndex ≤ totalItems`, flags `isFirstPage =
(validCurrentPage = 1)`, `isLastPage = (validCurrentPage = totalPages)`,
`hasNextPage = ¬isLastPage`, `hasPreviousPage = ¬isFirstPage`, and a
defined result for `totalItems = 0` (a single empty page). -/
theorem C4_calculatePagination_correct (currentPage : Int) (pageSize totalItems : Nat)
    (tp vcp : Nat) (hs : 0 < pageSize)
    (htp : tp = max 1 (ceilDiv totalItems pageSize))
    (hvcp : vcp = (max 1 (min currentPage (tp : Int))).toNat) :
    (calculatePaginationInfo currentPage pageSize totalItems).totalPages = tp ∧
    1 ≤ vcp ∧ vcp ≤ tp ∧
    (calculatePaginationInfo currentPage pageSize totalItems).pageStartIndex =
      (vcp - 1) * pageSize ∧
    (calculatePaginationInfo currentPage pageSize totalItems).pageEndIndex =
      min ((calculatePaginationInfo currentPage pageSize totalItems).pageStartIndex +
        pageSize) totalItems ∧
    1 ≤ (calculatePaginationInfo currentPage pageSize totalItems).totalPages ∧
    (calculatePaginationInfo currentPage pageSize totalItems).pageStartIndex ≤
      (calculatePaginationInfo currentPage pageSize totalItems).pageEndIndex ∧
    (calculatePaginationInfo currentPage pageSize totalItems).pageEndIndex ≤ totalItems ∧
    (calculatePaginationInfo currentPage pageSize totalItems).isFirstPage =
      decide (vcp = 1) ∧
    (calculatePaginationInfo currentPage pageSize totalItems).isLastPage =
      decide (vcp = tp) ∧
    (calculatePaginationInfo currentPage pageSize totalItems).hasNextPage =
      !(calculatePaginationInfo currentPage pageSize totalItems).isLastPage ∧
    (calculatePaginationInfo currentPage pageSize totalItems).hasPreviousPage =
      !(calculatePaginationInfo currentPage pageSize totalItems).isFirstPage ∧
    (calculatePaginationInfo currentPage pageSize totalItems).totalProducts = totalItems ∧
    (totalItems = 0 →
      (calculatePaginationInfo currentPage pageSize totalItems).totalPages = 1 ∧
      (calculatePaginationInfo currentPage pageSize totalItems).pageStartIndex = 0 ∧
      (calculatePaginationInfo currentPage pageSize totalItems).pageEndIndex = 0) := by
  have htp1 : 1 ≤ tp := by omega
  have hvcp1 : 1 ≤ vcp := by
    have h := le_max_left (1 : Int) (min currentPage (tp : Int))
    omega
  have hvcptp : vcp ≤ tp := by
    have h1 : min currentPage (tp : Int) ≤ (tp : Int) := min_le_right _ _
    have h2 : max 1 (min currentPage (tp : Int)) ≤ (tp : Int) :=
      max_le (by exact_mod_cast htp1) h1
    omega
  have hceil0 : ceilDiv 0 pageSize = 0 := by
    unfold ceilDiv
    exact Nat.div_eq_of_lt (by omega)
  have hstart_le : (vcp - 1) * pageSize ≤ totalItems := by
    rcases Nat.eq_zero_or_pos totalItems with h0 | hpos
    · have htp0 : tp = 1 := by rw [htp, h0, hceil0]; omega
      have hv : vcp = 1 := by omega
      simp [hv, h0]
    · have htpe : tp = ceilDiv totalItems pageSize := by
        have hcp := ceilDiv_pos totalItems pageSize hs hpos
        omega
      have h1 : vcp - 1 ≤ ceilDiv totalItems pageSize - 1 := by omega
      have h2 : (vcp - 1) * pageSize ≤ (ceilDiv totalItems pageSize - 1) * pageSize :=
        Nat.mul_le_mul_right _ h1
      have h3 := ceilDiv_pred_mul_le totalItems pageSize hs hpos
      omega
  subst hvcp
  subst htp
  refine ⟨rfl, hvcp1, hvcptp, rfl, rfl, le_max_left 1 _, ?_, min_le_right _ _,
    rfl, rfl, rfl, rfl, rfl, ?_⟩
  · exact le_min (Nat.le_add_right _ _) hstart_le
  · intro h0
    subst h0
    refine ⟨by rw [show calculatePaginationInfo currentPage pageSize 0 =
        calculatePaginationInfo currentPage pageSize 0 from rfl]; simp
        [calculatePaginationInfo, hceil0], ?_, ?_⟩
    · have hv : ((max 1 (min currentPage
          ((max 1 (ceilDiv 0 pageSize) : Nat) : Int))).toNat - 1) * pageSize = 0 := by
        have h := le_max_left (1 : Int) (min currentPage
          ((max 1 (ceilDiv 0 pageSize) : Nat) : Int))
        have h1 : min currentPage ((max 1 (ceilDiv 0 pageSize) : Nat) : Int) ≤
            ((max 1 (ceilDiv 0 pageSize) : Nat) : Int) := min_le_right _ _
        rw [hceil0] at h h1 ⊢
        have : (max 1 (min currentPage ((max 1 0 : Nat) : Int))).toNat = 1 := by omega
        rw [this]
        simp
      exact hv
    · exact Nat.min_zero _

/-- Witness for C4 at `currentPage = 2`, `pageSize = 10`, `totalItems = 25`
(3 pages, valid current page 2, item window `[10, 20)`). -/
theorem C4_calculatePagination_correct_witness :
    0 < 10 ∧
    (3 : Nat) = max 1 (ceilDiv 25 10) ∧
    (2 : Nat) = (max 1 (min 2 ((3 : Nat) : Int))).toNat ∧
    ((calculatePaginationInfo 2 10 25).totalPages = 3 ∧
     1 ≤ 2 ∧ 2 ≤ 3 ∧
     (calculatePaginationInfo 2 10 25).pageStartIndex = 10 ∧
     (calculatePaginationInfo 2 10 25).pageEndIndex = 20 ∧
     1 ≤ (calculatePaginationInfo 2 10 25).totalPages ∧
     (calculatePaginationInfo 2 10 25).pageStartIndex ≤
       (calculatePaginationInfo 2 10 25).pageEndIndex ∧
     (calculatePaginationInfo 2 10 25).pageEndIndex ≤ 25 ∧
     (calculatePaginationInfo 2 10 25).isFirstPage = false ∧
     (calculatePaginationInfo 2 10 25).isLastPage = false ∧
     (calculatePaginationInfo 2 10 25).hasNextPage = true ∧
     (calculatePaginationInfo 2 10 25).hasPreviousPage = true ∧
     (calculatePaginationInfo 2 10 25).totalProducts = 25 ∧
     (25 = 0 → (calculatePaginationInfo 2 10 25).totalPages = 1 ∧
       (calculatePaginationInfo 2 10 25).pageStartIndex = 0 ∧
       (calculatePaginationInfo 2 10 25).pageEndIndex = 0)) :=
  ⟨by decide, by decide, by decide,
   C4_calculatePagination_correct 2 10 25 3 2 (by decide) (by decide) (by decide)⟩

/-- **C5** (confirmed).  Wraparound navigation: in a state with non-empty
products whose `currentPage` is in range, `nextPage` wraps to 1 from the
last page and otherwise increments, and `previousPage` wraps to
`totalPages` from page 1 and otherwise decrements, where `totalPages =
ceil(products.length / uiPageSize)` as the navigation code computes it. -/
theorem C5_wraparound_nav (s : RecsManagerState) (hne : s.products.length ≠ 0)
    (hlo : 1 ≤ s.currentPage)
    (hhi : s.currentPage ≤ (ceilDiv s.products.length s.uiPageSize : Int)) :
    ((s.currentPage = (ceilDiv s.products.length s.uiPageSize : Int) →
        (nextPageUpdate s).currentPage = 1) ∧
     (s.currentPage ≠ (ceilDiv s.products.length s.uiPageSize : Int) →
        (nextPageUpdate s).currentPage = s.currentPage + 1)) ∧
    ((s.currentPage = 1 →
        (previousPageUpdate s).currentPage =
          (ceilDiv s.products.length s.uiPageSize : Int)) ∧
     (s.currentPage ≠ 1 →
        (previousPageUpdate s).currentPage = s.currentPage - 1)) := by
  unfold nextPageUpdate previousPageUpdate
  rw [if_neg hne, if_neg hne]
  refine ⟨⟨fun h => ?_, fun h => ?_⟩, fun h => ?_, fun h => ?_⟩ <;> simp only []
  · rw [if_pos (by omega)]
  · rw [if_neg (by omega)]
  · rw [if_pos (by omega)]
  · rw [if_neg (by omega)]

/-- Witness for C5: 25 products, page size 10 (3 pages); `nextPage` from
page 3 yields page 1, `previousPage` from page 1 yields page 3. -/
theorem C5_wraparound_nav_witness :
    ((exampleState 25 10 3).products.length ≠ 0 ∧
     1 ≤ (exampleState 25 10 3).currentPage ∧
     (exampleState 25 10 3).currentPage ≤
       (ceilDiv (exampleState 25 10 3).products.length (exampleState 25 10 3).uiPageSize : Int) ∧
     (nextPageUpdate (exampleState 25 10 3)).currentPage = 1) ∧
    ((exampleState 25 10 1).products.length ≠ 0 ∧
     1 ≤ (exampleState 25 10 1).currentPage ∧
     (exampleState 25 10 1).currentPage ≤
       (ceilDiv (exampleState 25 10 1).products.length (exampleState 25 10 1).uiPageSize : Int) ∧
     (previousPageUpdate (exampleState 25 10 1)).currentPage =
       (ceilDiv (exampleState 25 10 1).products.length (exampleState 25 10 1).uiPageSize : Int)) :=
  ⟨⟨by decide, by decide, by decide,
    (C5_wraparound_nav (exampleState 25 10 3) (by decide) (by decide) (by decide)).1.1
      (by decide)⟩,
   ⟨by decide, by decide, by decide,
    (C5_wraparound_nav (exampleState 25 10 1) (by decide) (by decide) (by decide)).2.1
      (by decide)⟩⟩

/-- **C8** (confirmed).  `goToPage` round trip and out-of-range no-op: in a
state with non-empty products, `goToPage(k)` for `k ∈ [1, totalPages]`
followed by `getPageInfo().currentPage` yields `k`; for `k` outside the
range the whole state is left unchanged (no clamping, no throw). -/
theorem C8_goToPage_roundtrip (s : RecsManagerState) (n : Int)
    (hne : s.products.length ≠ 0) :
    (1 ≤ n → n ≤ (ceilDiv s.products.length s.uiPageSize : Int) →
      (getPageInfo (goToPageUpdate n s)).currentPage = n) ∧
    ((n < 1 ∨ (ceilDiv s.products.length s.uiPageSize : Int) < n) →
      goToPageUpdate n s = s) := by
  unfold goToPageUpdate
  rw [if_neg hne]
  constructor
  · intro h1 h2
    simp only []
    rw [if_neg (by omega)]
    rfl
  · intro h
    simp only []
    rw [if_pos (by omega)]

/-- Witness for C8: 25 products, page size 10; `goToPage 2` reads back 2,
`goToPage 7` is a no-op. -/
theorem C8_goToPage_roundtrip_witness :
    ((exampleState 25 10 1).products.length ≠ 0 ∧ (1 : Int) ≤ 2 ∧
     (2 : Int) ≤ (ceilDiv (exampleState 25 10 1).products.length
        (exampleState 25 10 1).uiPageSize : Int) ∧
     (getPageInfo (goToPageUpdate 2 (exampleState 25 10 1))).currentPage = 2) ∧
    (((7 : Int) < 1 ∨ (ceilDiv (exampleState 25 10 1).products.length
        (exampleState 25 10 1).uiPageSize : Int) < 7) ∧
     goToPageUpdate 7 (exampleState 25 10 1) = exampleState 25 10 1) :=
  ⟨⟨by decide, by decide, by decide,
    (C8_goToPage_roundtrip (exampleState 25 10 1) 2 (by decide)).1 (by decide) (by decide)⟩,
   ⟨by decide,
    (C8_goToPage_roundtrip (exampleState 25 10 1) 7 (by decide)).2 (by decide)⟩⟩

/-- **C9** (confirmed).  `setPageSize` error atomicity: for every
`n ≤ 0`, `setPageSize(n)` throws the invalid-page-size error (a
`RecsConfigError` with message "Page size must be a positive number")
synchronously, and the recommendation state is left entirely unchanged. -/
theorem C9_setPageSize_error_atomic (s : RecsManagerState) (n : Int) (h : n ≤ 0) :
    setPageSize n s = .error (.configError "Page size must be a positive number") ∧
    applySetPageSize n s = s := by
  constructor
  · unfold setPageSize
    rw [if_pos h]
  · unfold applySetPageSize setPageSize
    rw [if_pos h]

/-- Witness for C9 at `n = 0` and `n = -3`. -/
theorem C9_setPageSize_error_atomic_witness :
    ((0 : Int) ≤ 0 ∧
     setPageSize 0 (exampleState 25 10 2) =
       .error (.configError "Page size must be a positive number") ∧
     applySetPageSize 0 (exampleState 25 10 2) = exampleState 25 10 2) ∧
    ((-3 : Int) ≤ 0 ∧
     setPageSize (-3) (exampleState 25 10 2) =
       .error (.configError "Page size must be a positive number") ∧
     applySetPageSize (-3) (exampleState 25 10 2) = exampleState 25 10 2) :=
  ⟨⟨by decide, C9_setPageSize_error_atomic (exampleState 25 10 2) 0 (by decide)⟩,
   ⟨by decide, C9_setPageSize_error_atomic (exampleState 25 10 2) (-3) (by decide)⟩⟩

/-- Counterexample to **C3**: in the spec's own scenario (25 products, page
size 10 → 5 while on page 2), the code yields `currentPage = 1`, not the
position-preserving page 3 that the claim predicts (the absolute index of
the first item of the old page is `(2-1)*10 = 10`, and index 10 lies on
page `10/5 + 1 = 3` under the new size). -/
theorem C3_counterexample :
    (setPageSize 5 (exampleState 25 10 2)).map RecsManagerState.currentPage =
      .ok 1 ∧
    ((exampleState 25 10 2).currentPage - 1) * 10 / 5 + 1 = 3 ∧
    (1 : Int) ≠ 3 := by decide

/-- **C3** (corrected).  What `setPageSize` actually does for `n > 0`: it
stores the new page size and unconditionally resets `currentPage` to 1; the
previous scroll position is not preserved. -/
theorem C3_amended_setPageSize_resets_to_first (s : RecsManagerState) (n : Int)
    (h : 0 < n) :
    setPageSize n s = .ok { s with uiPageSize := n.toNat, currentPage := 1 } := by
  unfold setPageSize
  rw [if_neg (by omega)]

/-- Witness for the amended C3 at `n = 5` from page 2. -/
theorem C3_amended_setPageSize_resets_to_first_witness :
    (0 : Int) < 5 ∧
    setPageSize 5 (exampleState 25 10 2) =
      .ok { exampleState 25 10 2 with uiPageSize := (5 : Int).toNat, currentPage := 1 } :=
  ⟨by decide, C3_amended_setPageSize_resets_to_first (exampleState 25 10 2) 5 (by decide)⟩

/-- Counterexample to **C2**: starting from a pagination-consistent state
(25 products, page size 10, page 1), `nextPage` moves `currentPage` to 2
but leaves every derived field as it was — `pageStartIndex` stays 0 while
the Pagination Calculator computes 10 for the new page — so the state is no
longer consistent. -/
theorem C2_counterexample :
    paginationConsistent (exampleState 25 10 1) ∧
    ¬ paginationConsistent (nextPageUpdate (exampleState 25 10 1)) ∧
    (nextPageUpdate (exampleState 25 10 1)).currentPage = 2 ∧
    (nextPageUpdate (exampleState 25 10 1)).pageStartIndex = 0 ∧
    (calculatePaginationInfo 2 10 25).pageStartIndex = 10 := by decide

/-- **C2** (corrected).  The derived pagination fields are recomputed as a
block only by the fetch `done` watcher (whose cache-key guard passes),
which makes the state consistent with `(currentPage, uiPageSize,
products.length)`; the navigation and page-size operations write only
`currentPage` / `uiPageSize` and leave all eight derived fields untouched
(and hence, in general, stale). -/
theorem C2_amended_recompute_only_on_done (params : RecsManagerConfig)
    (result : RequestRecsResponse) (now : Int) (s : RecsManagerState) (n : Int)
    (h : s.cacheKey = some (generateCacheKey params)) :
    paginationConsistent (doneWatcherUpdate params result now s) ∧
    derivedFields (nextPageUpdate s) = derivedFields s ∧
    derivedFields (previousPageUpdate s) = derivedFields s ∧
    derivedFields (goToPageUpdate n s) = derivedFields s ∧
    derivedFields (applySetPageSize n s) = derivedFields s := by
  refine ⟨?_, ?_, ?_, ?_, ?_⟩
  · unfold doneWatcherUpdate
    rw [if_neg (by simp [h])]
    simp [paginationConsistent, RecsManagerState.withPagination]
  · unfold nextPageUpdate
    split <;> rfl
  · unfold previousPageUpdate
    split <;> rfl
  · unfold goToPageUpdate
    split
    · rfl
    · simp only []
      split <;> rfl
  · unfold applySetPageSize setPageSize
    by_cases hn : n ≤ 0
    · rw [if_pos hn]
    · rw [if_neg hn]
      rfl

/-- Witness for the amended C2 on a concrete matching state. -/
theorem C2_amended_recompute_only_on_done_witness :
    ({ exampleState 25 10 1 with cacheKey := some (generateCacheKey cfgA) }
        : RecsManagerState).cacheKey = some (generateCacheKey cfgA) ∧
    (paginationConsistent (doneWatcherUpdate cfgA respEx 42
        { exampleState 25 10 1 with cacheKey := some (generateCacheKey cfgA) }) ∧
     derivedFields (nextPageUpdate
        { exampleState 25 10 1 with cacheKey := some (generateCacheKey cfgA) }) =
       derivedFields
        { exampleState 25 10 1 with cacheKey := some (generateCacheKey cfgA) } ∧
     derivedFields (previousPageUpdate
        { exampleState 25 10 1 with cacheKey := some (generateCacheKey cfgA) }) =
       derivedFields
        { exampleState 25 10 1 with cacheKey := some (generateCacheKey cfgA) } ∧
     derivedFields (goToPageUpdate 2
        { exampleState 25 10 1 with cacheKey := some (generateCacheKey cfgA) }) =
       derivedFields
        { exampleState 25 10 1 with cacheKey := some (generateCacheKey cfgA) } ∧
     derivedFields (applySetPageSize 2
        { exampleState 25 10 1 with cacheKey := some (generateCacheKey cfgA) }) =
       derivedFields
        { exampleState 25 10 1 with cacheKey := some (generateCacheKey cfgA) }) :=
  ⟨rfl, C2_amended_recompute_only_on_done cfgA respEx 42
    { exampleState 25 10 1 with cacheKey := some (generateCacheKey cfgA) } 2 rfl⟩

/-- Counterexample to **C1**: in `gEx` both instances `"a"` and `"b"` are
initialized and the shared store holds 25 products at page 1;
`nextPage("a")` changes the `currentPage` that instance `"b"` observes
from 1 to 2. -/
theorem C1_counterexample :
    (observedState "b" gEx).currentPage = 1 ∧
    (nextPageGlobal "a" 5 gEx).map (fun g => (observedState "b" g).currentPage) =
      .ok 2 := by decide

/-- **C1** (corrected).  A navigation operation on instance `a` leaves
instance `b`'s registry entry untouched, but not its observable
recommendation state: all instances share the single module-level store,
so `nextPage(a)` applies the page change to the very store `b` reads. -/
theorem C1_amended_shared_store (g : RecsGlobal) (a b : String) (now : Int)
    (ia : RecsManagerInstance) (hab : a ≠ b)
    (ha : assocLookup g.instances a = some ia) (hinit : ia.initialized = true) :
    nextPageGlobal a now g =
      .ok { store := nextPageUpdate g.store,
            instances := assocSet g.instances a { ia with lastUsed := now } } ∧
    assocLookup (assocSet g.instances a { ia with lastUsed := now }) b =
      assocLookup g.instances b ∧
    observedState b
        { store := nextPageUpdate g.store,
          instances := assocSet g.instances a { ia with lastUsed := now } } =
      nextPageUpdate g.store := by
  refine ⟨?_, assocLookup_assocSet_ne g.instances a b _ hab, rfl⟩
  unfold nextPageGlobal validateInstance
  rw [ha]
  simp only [hinit]
  rfl

/-- Witness for the amended C1 on the concrete two-instance system `gEx`. -/
theorem C1_amended_shared_store_witness :
    ("a" : String) ≠ "b" ∧
    assocLookup gEx.instances "a" = some instA ∧
    instA.initialized = true ∧
    (nextPageGlobal "a" 5 gEx =
       .ok { store := nextPageUpdate gEx.store,
             instances := assocSet gEx.instances "a" { instA with lastUsed := 5 } } ∧
     assocLookup (assocSet gEx.instances "a" { instA with lastUsed := 5 }) "b" =
       assocLookup gEx.instances "b" ∧
     observedState "b"
         { store := nextPageUpdate gEx.store,
           instances := assocSet gEx.instances "a" { instA with lastUsed := 5 } } =
       nextPageUpdate gEx.store) :=
  ⟨by decide, by decide, by decide,
   C1_amended_shared_store gEx "a" "b" 5 instA (by decide) (by decide) (by decide)⟩

/-- Counterexample to **C6**: a failed fetch whose config fingerprint
(`cfgA`) differs from the state's current `cacheKey` (`cfgB`'s
fingerprint) still overwrites the state's `error` field, through the
unguarded `catch` update in `fetchRecommendations`. -/
theorem C6_counterexample :
    generateCacheKey cfgA ≠ generateCacheKey cfgB ∧
    ({ exampleState 25 10 1 with cacheKey := some (generateCacheKey cfgB) }
        : RecsManagerState).error = none ∧
    (fetchFailurePath cfgA "boom"
        { exampleState 25 10 1 with cacheKey := some (generateCacheKey cfgB) }).error =
      some "Failed to fetch recommendations: boom" := by decide

/-- **C6** (corrected).  When the state's `cacheKey` no longer matches the
fingerprint of the fetch's config: the `done` watcher and the `fail`
watcher both leave the state completely unchanged (the guard works), and a
stale failure leaves `products` and all derived pagination fields alone —
but the `catch` block of `fetchRecommendations` still overwrites `error`
(and `loading`) with no cache-key guard. -/
theorem C6_amended_guard_except_catch (params : RecsManagerConfig)
    (result : RequestRecsResponse) (msg : String) (now : Int)
    (s : RecsManagerState) (h : s.cacheKey ≠ some (generateCacheKey params)) :
    doneWatcherUpdate params result now s = s ∧
    failWatcherUpdate params msg s = s ∧
    (fetchFailurePath params msg s).products = s.products ∧
    derivedFields (fetchFailurePath params msg s) = derivedFields s ∧
    (fetchFailurePath params msg s).error =
      some ("Failed to fetch recommendations: " ++ msg) := by
  have h1 : doneWatcherUpdate params result now s = s := by
    unfold doneWatcherUpdate
    rw [if_pos h]
  have h2 : failWatcherUpdate params msg s = s := by
    unfold failWatcherUpdate
    rw [if_pos h]
  refine ⟨h1, h2, ?_, ?_, ?_⟩ <;> unfold fetchFailurePath <;> rw [h2] <;> rfl

/-- Witness for the amended C6: stale failure from `cfgA` against a state
keyed by `cfgB`'s fingerprint. -/
theorem C6_amended_guard_except_catch_witness :
    ({ exampleState 25 10 1 with cacheKey := some (generateCacheKey cfgB) }
        : RecsManagerState).cacheKey ≠ some (generateCacheKey cfgA) ∧
    (doneWatcherUpdate cfgA respEx 42
        { exampleState 25 10 1 with cacheKey := some (generateCacheKey cfgB) } =
      { exampleState 25 10 1 with cacheKey := some (generateCacheKey cfgB) } ∧
     failWatcherUpdate cfgA "boom"
        { exampleState 25 10 1 with cacheKey := some (generateCacheKey cfgB) } =
      { exampleState 25 10 1 with cacheKey := some (generateCacheKey cfgB) } ∧
     (fetchFailurePath cfgA "boom"
        { exampleState 25 10 1 with cacheKey := some (generateCacheKey cfgB) }).products =
      ({ exampleState 25 10 1 with cacheKey := some (generateCacheKey cfgB) }
        : RecsManagerState).products ∧
     derivedFields (fetchFailurePath cfgA "boom"
        { exampleState 25 10 1 with cacheKey := some (generateCacheKey cfgB) }) =
      derivedFields
        { exampleState 25 10 1 with cacheKey := some (generateCacheKey cfgB) } ∧
     (fetchFailurePath cfgA "boom"
        { exampleState 25 10 1 with cacheKey := some (generateCacheKey cfgB) }).error =
      some ("Failed to fetch recommendations: " ++ "boom")) :=
  ⟨by decide,
   C6_amended_guard_except_catch cfgA respEx "boom" 42
     { exampleState 25 10 1 with cacheKey := some (generateCacheKey cfgB) } (by decide)⟩

/-- **C7** (confirmed).  Cache TTL semantics: `setCachedData` under a
positive configured TTL stores the entry with `expiresAt = storeTime +
ttl`; `getCachedData` at time `t'` returns it exactly when `t' <
expiresAt`, and at or past `expiresAt` reports it absent and removes it
from the cache. -/
theorem C7_cache_ttl_semantics (cache : RecsCache) (key : CacheKeyData)
    (data : RequestRecsResponse) (config : RecsManagerConfig)
    (t ttl t' ttlArg : Int)
    (hnd : (cache.map Prod.fst).Nodup)
    (hsize : cache.length < MAX_CACHE_SIZE)
    (httl : config.cacheTTL = some ttl) (hpos : 0 < ttl) :
    assocLookup (setCachedData cache key data config t) key =
      some { data := data, timestamp := t, config := config, expiresAt := t + ttl } ∧
    (getCachedData (setCachedData cache key data config t) key ttlArg t').1 =
      (if t' < t + ttl then
         some { data := data, timestamp := t, config := config, expiresAt := t + ttl }
       else none) ∧
    (t + ttl ≤ t' →
      assocLookup
        (getCachedData (setCachedData cache key data config t) key ttlArg t').2 key =
        none) := by
  have hjs : jsOrInt config.cacheTTL DEFAULT_CACHE_TTL = ttl := by
    rw [httl]
    simp only [jsOrInt]
    rw [if_neg (by omega)]
  have hlook := lookup_setCachedData_self cache key data config t hnd hsize
    (by rw [hjs]; omega)
  rw [hjs] at hlook
  refine ⟨hlook, ?_, ?_⟩
  · unfold getCachedData
    rw [hlook]
    dsimp only
    split_ifs with h1 h2 h3 <;> first | rfl | omega
  · intro hle
    unfold getCachedData
    rw [hlook]
    dsimp only
    rw [if_pos (by omega)]
    exact assocLookup_assocDelete_self _ _

/-- Witness for C7: an entry stored with `ttl = 100` at time 0 and read at
time 150 is absent and purged. -/
theorem C7_cache_ttl_semantics_witness :
    (([] : RecsCache).map Prod.fst).Nodup ∧
    ([] : RecsCache).length < MAX_CACHE_SIZE ∧
    cfgTTL100.cacheTTL = some 100 ∧ (0 : Int) < 100 ∧
    (assocLookup (setCachedData [] (generateCacheKey cfgA) respEx cfgTTL100 0)
        (generateCacheKey cfgA) =
      some { data := respEx, timestamp := 0, config := cfgTTL100, expiresAt := 0 + 100 } ∧
     (getCachedData (setCachedData [] (generateCacheKey cfgA) respEx cfgTTL100 0)
        (generateCacheKey cfgA) 100 150).1 =
      (if (150 : Int) < 0 + 100 then
         some { data := respEx, timestamp := 0, config := cfgTTL100, expiresAt := 0 + 100 }
       else none) ∧
     ((0 : Int) + 100 ≤ 150 →
      assocLookup
        (getCachedData (setCachedData [] (generateCacheKey cfgA) respEx cfgTTL100 0)
          (generateCacheKey cfgA) 100 150).2 (generateCacheKey cfgA) = none)) :=
  ⟨by decide, by decide, by decide, by decide,
   C7_cache_ttl_semantics [] (generateCacheKey cfgA) respEx cfgTTL100 0 100 150 100
     (by decide) (by decide) (by decide) (by decide)⟩

/-- **C10** (confirmed).  `cacheTTL = 0` passes validation (only negative
TTLs are rejected) but is replaced by the 5-minute default in both the
fetch effect's TTL computation and the cache write — an entry stored under
`cacheTTL = 0` is still present before `storeTime + DEFAULT_CACHE_TTL` —
and `maxApiResults = 0` passes validation and the fetch effect requests
the default of 100 items. -/
theorem C10_zero_ttl_and_max_defaults (config : RecsManagerConfig)
    (tneg mneg : Int) (cache : RecsCache) (key : CacheKeyData)
    (data : RequestRecsResponse) (t ttlArg t' : Int) (api : RequestRecsResponse)
    (h0 : config.cacheTTL = some 0) (hm : config.maxApiResults = some 0)
    (ht : ¬ config.shopTenant = "") (hn : ¬ config.name = "")
    (hc : ¬ config.collection = "") (hp : 0 < config.uiPageSize)
    (htneg : tneg < 0) (hmneg : mneg < 0)
    (hnd : (cache.map Prod.fst).Nodup) (hsize : cache.length < MAX_CACHE_SIZE)
    (hfresh : t' < t + DEFAULT_CACHE_TTL) :
    validateConfig config = .ok () ∧
    validateConfig { config with cacheTTL := some tneg } =
      .error (.configError "Cache TTL must be non-negative if specified") ∧
    validateConfig { config with maxApiResults := some mneg } =
      .error (.configError "Max API results must be a positive number if specified") ∧
    jsOrInt config.cacheTTL DEFAULT_CACHE_TTL = DEFAULT_CACHE_TTL ∧
    jsOrInt config.maxApiResults DEFAULT_MAX_API_RESULTS = DEFAULT_MAX_API_RESULTS ∧
    DEFAULT_CACHE_TTL = 5 * 60 * 1000 ∧
    DEFAULT_MAX_API_RESULTS = 100 ∧
    (getCachedData (setCachedData cache key data config t) key ttlArg t').1 =
      some { data := data, timestamp := t, config := config,
             expiresAt := t + DEFAULT_CACHE_TTL } ∧
    (fetchRecsFx config [] t api).2.1 = some DEFAULT_MAX_API_RESULTS := by
  have hjs : jsOrInt config.cacheTTL DEFAULT_CACHE_TTL = DEFAULT_CACHE_TTL := by
    rw [h0]
    rfl
  refine ⟨?_, ?_, ?_, hjs, ?_, rfl, rfl, ?_, ?_⟩
  · unfold validateConfig
    rw [if_neg ht, if_neg hn, if_neg hc, if_neg (by omega),
        if_neg (by rw [hm]; decide), if_neg (by rw [h0]; decide)]
  · unfold validateConfig
    dsimp only
    rw [if_neg ht, if_neg hn, if_neg hc, if_neg (by omega),
        if_neg (by rw [hm]; decide),
        if_pos (by unfold jsAndInt; simp; omega)]
  · unfold validateConfig
    dsimp only
    rw [if_neg ht, if_neg hn, if_neg hc, if_neg (by omega),
        if_pos (by unfold jsAndInt; simp; omega)]
  · rw [hm]
    rfl
  · have hlook := lookup_setCachedData_self cache key data config t hnd hsize
      (by rw [hjs]; decide)
    rw [hjs] at hlook
    unfold getCachedData
    rw [hlook]
    dsimp only
    rw [if_neg (by omega)]
  · unfold fetchRecsFx getCachedData assocLookup
    dsimp only
    rw [hm]
    rfl

/-- Witness for C10 on `cfgZero` (`cacheTTL = 0`, `maxApiResults = 0`). -/
theorem C10_zero_ttl_and_max_defaults_witness :
    cfgZero.cacheTTL = some 0 ∧ cfgZero.maxApiResults = some 0 ∧
    ¬ cfgZero.shopTenant = "" ∧ ¬ cfgZero.name = "" ∧ ¬ cfgZero.collection = "" ∧
    0 < cfgZero.uiPageSize ∧ (-7 : Int) < 0 ∧ (-5 : Int) < 0 ∧
    (([] : RecsCache).map Prod.fst).Nodup ∧ ([] : RecsCache).length < MAX_CACHE_SIZE ∧
    (10 : Int) < 0 + DEFAULT_CACHE_TTL ∧
    (validateConfig cfgZero = .ok () ∧
     validateConfig { cfgZero with cacheTTL := some (-7) } =
       .error (.configError "Cache TTL must be non-negative if specified") ∧
     validateConfig { cfgZero with maxApiResults := some (-5) } =
       .error (.configError "Max API results must be a positive number if specified") ∧
     jsOrInt cfgZero.cacheTTL DEFAULT_CACHE_TTL = DEFAULT_CACHE_TTL ∧
     jsOrInt cfgZero.maxApiResults DEFAULT_MAX_API_RESULTS = DEFAULT_MAX_API_RESULTS ∧
     DEFAULT_CACHE_TTL = 5 * 60 * 1000 ∧
     DEFAULT_MAX_API_RESULTS = 100 ∧
     (getCachedData (setCachedData [] (generateCacheKey cfgZero) respEx cfgZero 0)
        (generateCacheKey cfgZero) DEFAULT_CACHE_TTL 10).1 =
       some { data := respEx, timestamp := 0, config := cfgZero,
              expiresAt := 0 + DEFAULT_CACHE_TTL } ∧
     (fetchRecsFx cfgZero [] 0 respEx).2.1 = some DEFAULT_MAX_API_RESULTS) :=
  ⟨by decide, by decide, by decide, by decide, by decide, by decide, by decide,
   by decide, by decide, by decide, by decide,
   C10_zero_ttl_and_max_defaults cfgZero (-7) (-5) [] (generateCacheKey cfgZero)
     respEx 0 DEFAULT_CACHE_TTL 10 respEx (by decide) (by decide) (by decide)
     (by decide) (by decide) (by decide) (by decide) (by decide) (by decide)
     (by decide) (by decide)⟩

end RecsManager
